import Mathlib

/-!
# DevOps-Guardian: verification of the licensing/watermarking utility,
# the SQL migration and the runbook configuration

A shallow embedding of the repository's three source files
(`watermarking.js`, `create_enum.sql`, `README.md` configuration
snippets) together with theorems checking the specification's claims
against it.  JavaScript strings are Lean `String`s, JS `Date` values are
millisecond timestamps (`Int`, ms since the Unix epoch), JS exceptions
are `Except`, and the SQL migration is a function on an explicit schema
state.
-/

namespace DevOpsGuardian

/-! ## JavaScript primitives used by the sources -/

/-- JS truthiness of a possibly-undefined string (`process.env.X ? … : …`,
`if (!x)`, `x || d`): `undefined` and the empty string are falsy. -/
def jsTruthy : Option String → Bool
  | none => false
  | some s => !s.isEmpty

/-- JS `x || d` for a possibly-undefined string `x` and a default `d`. -/
def jsOr (v : Option String) (d : String) : String :=
  match v with
  | none => d
  | some s => if s.isEmpty then d else s

/-- Value of a decimal digit character. -/
def digitVal (c : Char) : Nat := c.toNat - 48

/-- Gregorian leap-year test. -/
def isLeapYear (y : Nat) : Bool :=
  (y % 4 == 0 && y % 100 != 0) || y % 400 == 0

/-- Number of days in month `m` (1-based) of year `y`. -/
def daysInMonth (y m : Nat) : Nat :=
  match m with
  | 1 => 31
  | 2 => if isLeapYear y then 29 else 28
  | 3 => 31
  | 4 => 30
  | 5 => 31
  | 6 => 30
  | 7 => 31
  | 8 => 31
  | 9 => 30
  | 10 => 31
  | 11 => 30
  | 12 => 31
  | _ => 0

/-- Days in year `y`. -/
def daysInYear (y : Nat) : Nat := if isLeapYear y then 366 else 365

/-- Days from 1970-01-01 to the first day of year `y` (for `y ≥ 1970`). -/
def daysBeforeYear (y : Nat) : Nat :=
  (List.range (y - 1970)).foldl (fun acc i => acc + daysInYear (1970 + i)) 0

/-- Days from the first of January to the first day of month `m` in year `y`. -/
def daysBeforeMonth (y m : Nat) : Nat :=
  (List.range (m - 1)).foldl (fun acc i => acc + daysInMonth y (i + 1)) 0

/-- Parse a `YYYY-MM-DD` string into `(year, month, day)`. -/
def parseYMD (s : String) : Option (Nat × Nat × Nat) :=
  match s.data with
  | [a, b, c, d, s1, e, f, s2, g, h] =>
    if s1 == '-' && s2 == '-' && [a, b, c, d, e, f, g, h].all Char.isDigit then
      some (digitVal a * 1000 + digitVal b * 100 + digitVal c * 10 + digitVal d,
            digitVal e * 10 + digitVal f,
            digitVal g * 10 + digitVal h)
    else none
  | _ => none

/-- Model of JS `new Date(s).getTime()` for ISO `YYYY-MM-DD` date strings,
as milliseconds since the Unix epoch (UTC midnight).  The model covers
calendar-valid dates from 1970 on (enough for the licence date
`2026-12-31` the code uses); any other string is an *Invalid Date*
(`none`, JS `NaN`), and JS `<` comparisons against an invalid date are
false. -/
def jsDateParseMs (s : String) : Option Int :=
  match parseYMD s with
  | none => none
  | some (y, m, d) =>
    if 1970 ≤ y && 1 ≤ m && m ≤ 12 && 1 ≤ d && d ≤ daysInMonth y m then
      some (((daysBeforeYear y + daysBeforeMonth y m + (d - 1)) * 86400000 : Nat) : Int)
    else none

/-! ## `watermarking.js` — licensing module -/

/-- The decoded licence object returned by `decodeLicenseKey`. -/
structure License where
  expiresAt : String
  allowedInstances : List String
  features : List String
  customer : String
deriving DecidableEq, Repr

/-- `decodeLicenseKey` — the placeholder decoder: ignores the key and
returns a fixed licence object. -/
def decodeLicenseKey (_licenseKey : String) : License :=
  { expiresAt := "2026-12-31"
    allowedInstances := ["default-instance", "production-1", "staging-1"]
    features := ["all"]
    customer := "Example Customer" }

/-- The body of `verifyLicense`'s `try` block, given the decoded licence:
expired (`new Date(expiresAt) < currentDate`) ⇒ `false`; instance not in
`allowedInstances` ⇒ `false`; otherwise `true`.  `now` is the current
time in ms (`currentDate`). -/
def verifyLicenseCore (lic : License) (now : Int) (instanceId : String) : Bool :=
  let expired :=
    match jsDateParseMs lic.expiresAt with
    | some t => decide (t < now)
    | none => false
  if expired then false
  else if !(lic.allowedInstances.contains instanceId) then false
  else true

/-- `verifyLicense` over an arbitrary decoder that may throw (`Except`):
the `try`/`catch` returns `false` on any decoding error. -/
def verifyLicenseWith (decode : String → Except String License)
    (now : Int) (licenseKey instanceId : String) : Bool :=
  match decode licenseKey with
  | Except.ok lic => verifyLicenseCore lic now instanceId
  | Except.error _ => false

/-- The actual `decodeLicenseKey` never throws. -/
def decodeLicenseKeyE (licenseKey : String) : Except String License :=
  Except.ok (decodeLicenseKey licenseKey)

/-- `verifyLicense(licenseKey, instanceId)` as shipped, with the current
time made explicit. -/
def verifyLicense (now : Int) (licenseKey instanceId : String) : Bool :=
  verifyLicenseWith decodeLicenseKeyE now licenseKey instanceId

/-- `checkCodeIntegrity` — constant placeholder. -/
def checkCodeIntegrity : Bool := true

/-- Severity of a console log entry emitted by `initializeWatermarking`. -/
inductive LogLevel where
  | warn
  | error
  | debug
deriving DecidableEq, Repr

/-- A console log entry. -/
structure LogEvent where
  level : LogLevel
  msg : String
deriving DecidableEq, Repr

/-- `initializeWatermarking`, modelled as the list of console log events
it emits.  `env` is `process.env`; `now` the current time;
`watermarkB64` stands for the base64 of `generateSourceWatermark(…)`
(HMAC-SHA256-based, treated as an opaque input string). -/
def initializeWatermarking (env : String → Option String) (now : Int)
    (watermarkB64 : String) : List LogEvent :=
  let licenseKey := env "LICENSE_KEY"
  let instanceId := jsOr (env "INSTANCE_ID") "default-instance"
  let licenseEvents :=
    if !jsTruthy licenseKey then
      [LogEvent.mk LogLevel.warn "Application running in unregistered mode"]
    else if !verifyLicense now (licenseKey.getD "") instanceId then
      [LogEvent.mk LogLevel.error "Invalid license detected"]
    else []
  let integrityEvents :=
    if !checkCodeIntegrity then
      [LogEvent.mk LogLevel.error "Code integrity violation detected"]
    else []
  licenseEvents ++ integrityEvents ++
    [LogEvent.mk LogLevel.debug ("Application initialized " ++ watermarkB64)]

/-! ## `watermarking.js` — Vite watermark plugin -/

/-- The base64 alphabet character for a 6-bit value. -/
def b64char (n : Nat) : Char :=
  "ABCDEFGHIJKLMNOPQRSTUVWXYZabcdefghijklmnopqrstuvwxyz0123456789+/".data.getD n 'A'

/-- Standard base64 of a byte sequence (bytes as `Nat < 256`),
with `=` padding. -/
def base64encodeBytes : List Nat → List Char
  | [] => []
  | [a] => [b64char (a / 4), b64char (a % 4 * 16), '=', '=']
  | [a, b] => [b64char (a / 4), b64char (a % 4 * 16 + b / 16), b64char (b % 16 * 4), '=']
  | a :: b :: c :: rest =>
    b64char (a / 4) :: b64char (a % 4 * 16 + b / 16) :: b64char (b % 16 * 4 + c / 64) ::
      b64char (c % 64) :: base64encodeBytes rest

/-- The UTF-8 byte sequence of one code point (bytes as `Nat < 256`). -/
def utf8Bytes (c : Char) : List Nat :=
  let n := c.toNat
  if n < 128 then [n]
  else if n < 2048 then [192 + n / 64, 128 + n % 64]
  else if n < 65536 then [224 + n / 4096, 128 + n / 64 % 64, 128 + n % 64]
  else [240 + n / 262144, 128 + n / 4096 % 64, 128 + n / 64 % 64, 128 + n % 64]

/-- The UTF-8 bytes of a string. -/
def stringUtf8Bytes (s : String) : List Nat :=
  (s.data.map utf8Bytes).flatten

/-- `Buffer.from(s).toString('base64')`: base64 of the UTF-8 bytes of `s`. -/
def base64encode (s : String) : String :=
  String.mk (base64encodeBytes (stringUtf8Bytes s))

/-- JS `s.includes(sub)`: `sub` occurs contiguously inside `s`. -/
def strIncludes (s sub : String) : Bool := decide (sub.data <:+: s.data)

/-- JS `s.endsWith(post)`. -/
def strEndsWith (s post : String) : Bool := decide (post.data <:+ s.data)

/-- The resolved options of `watermarkPlugin` (after destructuring with
defaults).  `incl` is the JS option `include` (a Lean keyword);
`licenseHolder` and `version` default from `process.env`, so they carry
no fixed default here. -/
structure WatermarkOptions where
  licenseHolder : String
  version : String
  exclude : List String := ["node_modules", ".json", ".css", ".html"]
  incl : List String := [".js", ".jsx", ".ts", ".tsx"]
  customText : String := ""
  encodeWatermark : Bool := false
deriving DecidableEq, Repr

/-- The watermark string `transform` builds: the block comment, with the
optional custom text, optionally re-wrapped as `/* base64 */`.
`buildId` is the `Date.now()` captured when the plugin was created. -/
def mkWatermark (opts : WatermarkOptions) (buildId : Nat) : String :=
  let w := "/* DevOps-guardians v" ++ opts.version ++ " - Licensed to: " ++
    opts.licenseHolder ++ " - Build: " ++ toString buildId
  let w := if !opts.customText.isEmpty then w ++ " - " ++ opts.customText else w
  let w := w ++ " */"
  if opts.encodeWatermark then "/* " ++ base64encode w ++ " */" else w

/-- The plugin's `transform(code, id)` hook: skip files whose `id`
contains an excluded pattern, skip files whose `id` does not end with an
included extension (returning `null` = `none`), otherwise prepend the
watermark and a newline to the code. -/
def transform (opts : WatermarkOptions) (buildId : Nat) (code id : String) :
    Option String :=
  if opts.exclude.any (fun pattern => strIncludes id pattern) then none
  else if !opts.incl.any (fun ext => strEndsWith id ext) then none
  else some (mkWatermark opts buildId ++ "\n" ++ code)

/-! ## `create_enum.sql` — the migration as a schema-state transformer -/

/-- A column of `synthetic_transactions`, with the attributes the
migration manipulates. -/
structure SqlColumn where
  name : String
  sqlType : String
  notNull : Bool
  defaultVal : Option Nat
deriving DecidableEq, Repr

/-- Database schema state: the named enum types (`pg_type`) with their
value lists, and the columns of `synthetic_transactions`
(`information_schema.columns`). -/
structure Schema where
  types : List (String × List String)
  syntheticTransactionsColumns : List SqlColumn
deriving DecidableEq, Repr

/-- `EXISTS (SELECT 1 FROM pg_type WHERE typname = n)`. -/
def hasTypeNamed (s : Schema) (n : String) : Bool :=
  s.types.any (fun t => t.1 == n)

/-- `EXISTS (SELECT 1 FROM information_schema.columns WHERE … column_name = n)`. -/
def hasColumnNamed (cols : List SqlColumn) (n : String) : Bool :=
  cols.any (fun c => c.name == n)

/-- The value list of the enum type named `n`, when it exists. -/
def lookupType (s : Schema) (n : String) : Option (List String) :=
  (s.types.find? (fun t => t.1 == n)).map (fun t => t.2)

/-- The column named `n`, when it exists. -/
def lookupColumn (cols : List SqlColumn) (n : String) : Option SqlColumn :=
  cols.find? (fun c => c.name == n)

/-- The enum values of `CREATE TYPE transaction_type AS ENUM (…)`, in
declaration order. -/
def transactionTypeValues : List String := ["api", "content", "form", "navigation"]

/-- The column added by `ALTER TABLE synthetic_transactions ADD COLUMN
check_interval integer NOT NULL DEFAULT 300`. -/
def checkIntervalColumn : SqlColumn :=
  { name := "check_interval", sqlType := "integer", notNull := true, defaultVal := some 300 }

/-- The whole migration script: the two guarded `DO $$ … $$` blocks run
in order against a schema state. -/
def runMigration (s : Schema) : Schema :=
  let s1 :=
    if hasTypeNamed s "transaction_type" then s
    else { s with types := s.types ++ [("transaction_type", transactionTypeValues)] }
  if hasColumnNamed s1.syntheticTransactionsColumns "check_interval" then s1
  else { s1 with syntheticTransactionsColumns :=
          s1.syntheticTransactionsColumns ++ [checkIntervalColumn] }

/-- A schema with neither the enum type nor the column. -/
def emptySchema : Schema := ⟨[], []⟩

/-! ## `README.md` — application configuration (`server/config.ts` snippet) -/

/-- `monitoringConfig`'s shape. -/
structure MonitoringConfig where
  defaultCheckInterval : Nat
  defaultTimeout : Nat
  maxRetries : Nat
  retryDelay : Nat
  metricRetention : Nat
deriving DecidableEq, Repr

/-- `monitoringConfig` with the literal values from the runbook
(seconds, except `metricRetention` in days). -/
def monitoringConfig : MonitoringConfig :=
  { defaultCheckInterval := 60
    defaultTimeout := 30
    maxRetries := 3
    retryDelay := 5
    metricRetention := 365 }

/-- JS `parseInt(s, 10)`: the leading decimal digits of `s`, `none` for
`NaN`. -/
def parseInt10 (s : String) : Option Nat :=
  let ds := s.data.takeWhile Char.isDigit
  if ds.isEmpty then none
  else some (ds.foldl (fun acc c => acc * 10 + digitVal c) 0)

/-- The `email` channel of `notificationConfig`.  `emailFrom` is the JS
field `from` (a Lean keyword). -/
structure EmailConfig where
  enabled : Bool
  host : Option String
  port : Option Nat
  secure : Bool
  authUser : Option String
  authPass : Option String
  emailFrom : String
deriving DecidableEq, Repr

/-- The `sms` and `call` channels of `notificationConfig` (same shape). -/
structure TwilioChannelConfig where
  enabled : Bool
  accountSid : Option String
  authToken : Option String
  phoneNumber : Option String
deriving DecidableEq, Repr

/-- `notificationConfig`'s shape. -/
structure NotificationConfig where
  email : EmailConfig
  sms : TwilioChannelConfig
  call : TwilioChannelConfig
deriving DecidableEq, Repr

/-- `notificationConfig` as a function of `process.env`:
`enabled := env ? true : false` on the credential variable of each
channel. -/
def notificationConfig (env : String → Option String) : NotificationConfig :=
  { email :=
      { enabled := jsTruthy (env "SMTP_HOST")
        host := env "SMTP_HOST"
        port := parseInt10 (jsOr (env "SMTP_PORT") "587")
        secure := env "SMTP_SECURE" == some "true"
        authUser := env "SMTP_USER"
        authPass := env "SMTP_PASSWORD"
        emailFrom := jsOr (env "EMAIL_FROM") "alerts@devops-guardian.com" }
    sms :=
      { enabled := jsTruthy (env "TWILIO_ACCOUNT_SID")
        accountSid := env "TWILIO_ACCOUNT_SID"
        authToken := env "TWILIO_AUTH_TOKEN"
        phoneNumber := env "TWILIO_PHONE_NUMBER" }
    call :=
      { enabled := jsTruthy (env "TWILIO_ACCOUNT_SID")
        accountSid := env "TWILIO_ACCOUNT_SID"
        authToken := env "TWILIO_AUTH_TOKEN"
        phoneNumber := env "TWILIO_PHONE_NUMBER" } }

/-! ## Retry Coordinator (spec §4.2) -/

/-- The outcome of one probe attempt or of a whole check
(spec: `outcome ∈ \x7bsuccess, failure, timeout\x7d`). -/
inductive Outcome where
  | success
  | failure
  | timeout
deriving DecidableEq, Repr

/-- The final result of a retried check: final outcome, number of the
final attempt (1-based, so also the number of attempts performed), and
total elapsed seconds. -/
structure RetryOutcome where
  outcome : Outcome
  attempts : Nat
  elapsed : Nat
deriving DecidableEq, Repr

/-- Modelled from the spec: the Retry Coordinator (spec §4.2) has no
implementation under src/ — only the specification describes it.  Call
the Probe Executor up to `maxRetries+1` times (here `remaining` attempts
left after the current one), waiting `retryDelay` seconds between failed
attempts (not after the final one) and short-circuiting on the first
success.  `probe i` gives attempt `i`'s outcome and its duration in
seconds; the Probe Executor contract (§4.1) bounds each duration by the
transaction's `timeout`, which is therefore a hypothesis on `probe`
rather than a parameter here. -/
def retryLoop (probe : Nat → Outcome × Nat) (retryDelay : Nat) :
    Nat → Nat → RetryOutcome
  | 0, attempt =>
    let r := probe attempt
    ⟨r.1, attempt, r.2⟩
  | remaining + 1, attempt =>
    let r := probe attempt
    if r.1 = Outcome.success then ⟨r.1, attempt, r.2⟩
    else
      let rest := retryLoop probe retryDelay remaining (attempt + 1)
      ⟨rest.outcome, rest.attempts, r.2 + retryDelay + rest.elapsed⟩

/-- Modelled from the spec: one full check of a transaction, attempts
numbered from 1, at most `maxRetries + 1` of them. -/
def runCheck (maxRetries retryDelay : Nat) (probe : Nat → Outcome × Nat) :
    RetryOutcome :=
  retryLoop probe retryDelay maxRetries 1

/-! ## Concrete inputs used by witnesses and counterexamples -/

/-- An environment where `SMTP_HOST` is present but set to the empty
string. -/
def envSmtpEmpty : String → Option String :=
  fun k => if k == "SMTP_HOST" then some "" else none

/-- A probe that fails on every attempt, taking the full 30-second
timeout each time. -/
def alwaysFail30 : Nat → Outcome × Nat := fun _ => (Outcome.failure, 30)

/-- A decoder that always throws. -/
def alwaysThrowDecode : String → Except String License :=
  fun _ => Except.error "malformed license key"

/-! ## Helper lemmas -/

lemma str_data_append (s t : String) : (s ++ t).data = s.data ++ t.data := by
  cases s; cases t; rfl

lemma str_append_assoc (s t u : String) : s ++ t ++ u = s ++ (t ++ u) := by
  cases s; cases t; cases u
  show String.mk _ = String.mk _
  rw [List.append_assoc]

lemma find?_append_of_all_false {α : Type} (l l' : List α) (p : α → Bool)
    (h : ∀ x ∈ l, p x = false) : (l ++ l').find? p = l'.find? p := by
  induction l with
  | nil => simp
  | cons a t ih =>
    have ha : p a = false := h a (List.mem_cons_self a t)
    simp only [List.cons_append, List.find?, ha]
    exact ih fun x hx => h x (List.mem_cons_of_mem a hx)

lemma jsTruthy_iff (v : Option String) :
    jsTruthy v = true ↔ ∃ s, v = some s ∧ s ≠ "" := by
  cases v with
  | none => simp [jsTruthy]
  | some s =>
    simp only [jsTruthy, Bool.not_eq_true', Option.some.injEq]
    constructor
    · intro h
      exact ⟨s, rfl, by simpa [← String.isEmpty_iff] using h⟩
    · rintro ⟨t, rfl, ht⟩
      simpa [← String.isEmpty_iff] using ht

lemma split_head_append {a b c : String} (h : a = b ++ c) (d : String) :
    a ++ d = b ++ (c ++ d) := by
  rw [h, str_append_assoc]

lemma mkWatermark_shape (opts : WatermarkOptions) (buildId : Nat) :
    ∃ mid : String, mkWatermark opts buildId = "/* " ++ mid ++ " */" := by
  have h0 : ("/* DevOps-guardians v" : String) = "/* " ++ "DevOps-guardians v" := by
    decide
  have h1 := split_head_append h0 opts.version
  have h2 := split_head_append h1 " - Licensed to: "
  have h3 := split_head_append h2 opts.licenseHolder
  have h4 := split_head_append h3 " - Build: "
  have h5 := split_head_append h4 (toString buildId)
  unfold mkWatermark
  cases henc : opts.encodeWatermark with
  | true =>
    simp only [henc, if_true]
    exact ⟨base64encode _, rfl⟩
  | false =>
    simp only [henc, Bool.false_eq_true, if_false]
    cases hcust : opts.customText.isEmpty with
    | true =>
      simp only [hcust, Bool.not_true, Bool.false_eq_true, if_false]
      exact ⟨_, by rw [h5]⟩
    | false =>
      simp only [hcust, Bool.not_false, if_true]
      have h6 := split_head_append h5 " - "
      have h7 := split_head_append h6 opts.customText
      exact ⟨_, by rw [h7]⟩

lemma initMsg_ne (wm : String) :
    ("Application initialized " ++ wm) ≠ "Code integrity violation detected" := by
  intro h
  have h2 := congrArg String.data h
  rw [str_data_append] at h2
  have h5 : ("Application initialized ".data ++ wm.data).head? = some 'A' := rfl
  rw [h2] at h5
  exact absurd h5 (by decide)

lemma hasTypeNamed_runMigration (s : Schema) :
    hasTypeNamed (runMigration s) "transaction_type" = true := by
  unfold runMigration
  cases h : hasTypeNamed s "transaction_type" with
  | true =>
    simp only [h, if_true]
    split <;> simpa [hasTypeNamed] using h
  | false =>
    simp only [h, Bool.false_eq_true, if_false]
    split <;> simp [hasTypeNamed, List.any_append, transactionTypeValues]

lemma hasColumnNamed_runMigration (s : Schema) :
    hasColumnNamed (runMigration s).syntheticTransactionsColumns "check_interval" = true := by
  unfold runMigration
  cases h : hasTypeNamed s "transaction_type" <;>
    simp only [h, Bool.false_eq_true, if_true, if_false] <;>
    · split
      next hc => simpa using hc
      next => simp [hasColumnNamed, List.any_append, checkIntervalColumn]

lemma runMigration_fixed (s : Schema)
    (ht : hasTypeNamed s "transaction_type" = true)
    (hc : hasColumnNamed s.syntheticTransactionsColumns "check_interval" = true) :
    runMigration s = s := by
  simp [runMigration, ht, hc]

/-! ## Claims -/

/-- C1: `verifyLicense(licenseKey, instanceId)` returns `true` iff
decoding succeeds (the placeholder decoder always does), the decoded
`expiresAt` (2026-12-31) is not strictly earlier than the current date,
and `instanceId` is one of the decoded `allowedInstances`
(`default-instance`, `production-1`, `staging-1`).  `1798675200000` is
the timestamp of 2026-12-31. -/
theorem C1_verifyLicense_iff (now : Int) (licenseKey instanceId : String) :
    verifyLicense now licenseKey instanceId = true ↔
      now ≤ 1798675200000 ∧
        instanceId ∈ ["default-instance", "production-1", "staging-1"] := by
  have hdate : jsDateParseMs "2026-12-31" = some 1798675200000 := by decide
  simp only [verifyLicense, verifyLicenseWith, decodeLicenseKeyE, decodeLicenseKey,
    verifyLicenseCore, hdate]
  by_cases hlt : (1798675200000 : Int) < now
  · simp [hlt, Int.not_le.mpr hlt]
  · simp [hlt, Int.not_lt.mp hlt, List.contains, List.elem_iff]

/-- C5: the schema's `check_interval` default (300) and the
application's `monitoringConfig.defaultCheckInterval` (60) disagree. -/
theorem C5_default_conflict :
    (lookupColumn (runMigration emptySchema).syntheticTransactionsColumns
        "check_interval").map SqlColumn.defaultVal = some (some 300) ∧
    monitoringConfig.defaultCheckInterval = 60 ∧
    checkIntervalColumn.defaultVal ≠ some monitoringConfig.defaultCheckInterval := by
  decide

/-- C6: the application's `monitoringConfig` has `defaultTimeout = 30`,
`maxRetries = 3`, `retryDelay = 5` and `metricRetention = 365`. -/
theorem C6_monitoring_defaults :
    monitoringConfig.defaultTimeout = 30 ∧
    monitoringConfig.maxRetries = 3 ∧
    monitoringConfig.retryDelay = 5 ∧
    monitoringConfig.metricRetention = 365 := by
  decide

/-- C9: `verifyLicense` catches every decoding error: whenever the
decoder throws, the `try`/`catch` returns `false` instead of propagating
the exception. -/
theorem C9_verifyLicense_catches (decode : String → Except String License)
    (now : Int) (licenseKey instanceId : String) (e : String)
    (h : decode licenseKey = Except.error e) :
    verifyLicenseWith decode now licenseKey instanceId = false := by
  unfold verifyLicenseWith
  rw [h]

theorem C9_witness :
    verifyLicenseWith alwaysThrowDecode 0 "bad-key" "default-instance" = false :=
  C9_verifyLicense_catches alwaysThrowDecode 0 "bad-key" "default-instance"
    "malformed license key" rfl

/-- C3: on a schema that has neither of them yet, the migration creates
the enum type `transaction_type` with exactly the values `api`,
`content`, `form`, `navigation` in that order, and adds to
`synthetic_transactions` an integer column `check_interval`, `NOT NULL`
with default 300. -/
theorem C3_migration_creates (s : Schema)
    (htype : hasTypeNamed s "transaction_type" = false)
    (hcol : hasColumnNamed s.syntheticTransactionsColumns "check_interval" = false) :
    lookupType (runMigration s) "transaction_type" =
      some ["api", "content", "form", "navigation"] ∧
    lookupColumn (runMigration s).syntheticTransactionsColumns "check_interval" =
      some { name := "check_interval", sqlType := "integer",
             notNull := true, defaultVal := some 300 } := by
  have htype' : ∀ t ∈ s.types, (t.1 == "transaction_type") = false := by
    simpa [hasTypeNamed, List.any_eq_false] using htype
  have hcol' : ∀ c ∈ s.syntheticTransactionsColumns,
      (c.name == "check_interval") = false := by
    simpa [hasColumnNamed, List.any_eq_false] using hcol
  simp only [runMigration, htype, hcol, Bool.false_eq_true, if_false]
  constructor
  · simp only [lookupType, find?_append_of_all_false _ _ _ htype']
    simp [transactionTypeValues]
  · simp only [lookupColumn, find?_append_of_all_false _ _ _ hcol']
    simp [checkIntervalColumn]

theorem C3_witness :
    lookupType (runMigration emptySchema) "transaction_type" =
      some ["api", "content", "form", "navigation"] ∧
    lookupColumn (runMigration emptySchema).syntheticTransactionsColumns "check_interval" =
      some { name := "check_interval", sqlType := "integer",
             notNull := true, defaultVal := some 300 } :=
  C3_migration_creates emptySchema rfl rfl

/-- C4: the migration is idempotent: running it a second time changes
nothing, and on a schema where both the enum type and the column already
exist it is the identity. -/
theorem C4_migration_idempotent (s : Schema) :
    runMigration (runMigration s) = runMigration s ∧
    (hasTypeNamed s "transaction_type" = true →
      hasColumnNamed s.syntheticTransactionsColumns "check_interval" = true →
      runMigration s = s) :=
  ⟨runMigration_fixed (runMigration s) (hasTypeNamed_runMigration s)
      (hasColumnNamed_runMigration s),
    fun ht hc => runMigration_fixed s ht hc⟩

theorem C4_witness :
    runMigration (runMigration emptySchema) = runMigration emptySchema ∧
    runMigration (runMigration emptySchema) = runMigration emptySchema :=
  ⟨(C4_migration_idempotent emptySchema).1,
    (C4_migration_idempotent (runMigration emptySchema)).2 rfl rfl⟩

/-- C7 as stated is false: `envSmtpEmpty` sets `SMTP_HOST` (the variable
is present) to the empty string, yet `email.enabled` is `false`, because
the JS truthiness test `process.env.SMTP_HOST ? true : false` treats the
empty string as falsy. -/
theorem C7_counterexample :
    (envSmtpEmpty "SMTP_HOST").isSome = true ∧
    (notificationConfig envSmtpEmpty).email.enabled = false := by
  decide

/-- C7 (amended): each notification channel is enabled iff its
credential environment variable is present *with a non-empty value*:
`email.enabled` iff `SMTP_HOST` is set non-empty, `sms.enabled` and
`call.enabled` each iff `TWILIO_ACCOUNT_SID` is set non-empty. -/
theorem C7_channels_enabled_iff (env : String → Option String) :
    ((notificationConfig env).email.enabled = true ↔
      ∃ s, env "SMTP_HOST" = some s ∧ s ≠ "") ∧
    ((notificationConfig env).sms.enabled = true ↔
      ∃ s, env "TWILIO_ACCOUNT_SID" = some s ∧ s ≠ "") ∧
    ((notificationConfig env).call.enabled = true ↔
      ∃ s, env "TWILIO_ACCOUNT_SID" = some s ∧ s ≠ "") :=
  ⟨jsTruthy_iff _, jsTruthy_iff _, jsTruthy_iff _⟩

/-- C10: `checkCodeIntegrity` is constantly `true`, so
`initializeWatermarking` never logs the code-integrity violation — the
`if (!codeIntegrity)` branch is unreachable for every environment,
time and watermark string. -/
theorem C10_integrity_unreachable (env : String → Option String) (now : Int)
    (wm : String) :
    checkCodeIntegrity = true ∧
    (initializeWatermarking env now wm).all
      (fun ev => ev.msg != "Code integrity violation detected") = true := by
  refine ⟨rfl, ?_⟩
  simp only [initializeWatermarking, checkCodeIntegrity, Bool.not_true,
    Bool.false_eq_true, if_false, List.append_nil, List.all_append,
    Bool.and_eq_true]
  refine ⟨?_, ?_⟩
  · split
    · decide
    · split <;> decide
  · simpa [bne_iff_ne] using initMsg_ne wm

/-- C2: the plugin's `transform(code, id)` leaves a file unchanged
(returns `null`) iff its `id` contains an excluded pattern or does not
end with an included extension; otherwise it returns a block-comment
watermark, a newline, then the original code verbatim. -/
theorem C2_transform_frame (opts : WatermarkOptions) (buildId : Nat)
    (code id : String) :
    (transform opts buildId code id = none ↔
      (∃ p ∈ opts.exclude, p.data <:+: id.data) ∨
        ∀ ext ∈ opts.incl, ¬ ext.data <:+ id.data) ∧
    ∀ out, transform opts buildId code id = some out →
      ∃ mid : String, out = "/* " ++ mid ++ " */" ++ "\n" ++ code := by
  constructor
  · cases h1 : opts.exclude.any (fun pattern => strIncludes id pattern) with
    | true =>
      have hex : ∃ p ∈ opts.exclude, p.data <:+: id.data := by
        obtain ⟨p, hp, hps⟩ := List.any_eq_true.mp h1
        exact ⟨p, hp, of_decide_eq_true hps⟩
      exact iff_of_true (by simp [transform, h1]) (Or.inl hex)
    | false =>
      cases h2 : opts.incl.any (fun ext => strEndsWith id ext) with
      | false =>
        have hall : ∀ ext ∈ opts.incl, ¬ ext.data <:+ id.data := by
          intro ext hext hsb
          have hse : strEndsWith id ext = true := decide_eq_true hsb
          have hf := List.any_eq_true.mpr ⟨ext, hext, hse⟩
          rw [h2] at hf
          exact Bool.false_ne_true hf
        exact iff_of_true (by simp [transform, h1, h2]) (Or.inr hall)
      | true =>
        have hnex : ¬ ∃ p ∈ opts.exclude, p.data <:+: id.data := by
          rintro ⟨p, hp, hinf⟩
          have hsi : strIncludes id p = true := decide_eq_true hinf
          have hf := List.any_eq_true.mpr ⟨p, hp, hsi⟩
          rw [h1] at hf
          exact Bool.false_ne_true hf
        have hnall : ¬ ∀ ext ∈ opts.incl, ¬ ext.data <:+ id.data := by
          obtain ⟨ext, hext, hsb⟩ := List.any_eq_true.mp h2
          exact fun hall => hall ext hext (of_decide_eq_true hsb)
        refine iff_of_false (by simp [transform, h1, h2]) ?_
        rintro (hex | hall)
        · exact hnex hex
        · exact hnall hall
  · intro out hout
    unfold transform at hout
    split at hout
    · exact absurd hout (by simp)
    · split at hout
      · exact absurd hout (by simp)
      · obtain ⟨mid, hm⟩ := mkWatermark_shape opts buildId
        refine ⟨mid, ?_⟩
        rw [← Option.some.inj hout, hm]

theorem C2_witness :
    ∃ mid : String,
      ("/* DevOps-guardians v1.0.0 - Licensed to: Acme - Build: 7 */" ++ "\n" ++
          "const x = 1;") =
        "/* " ++ mid ++ " */" ++ "\n" ++ "const x = 1;" :=
  (C2_transform_frame { licenseHolder := "Acme", version := "1.0.0" } 7
      "const x = 1;" "src/app.js").2 _ (by decide)

lemma retryLoop_fail_5_30 (probe : Nat → Outcome × Nat)
    (hfail : ∀ i, (probe i).1 = Outcome.failure)
    (hdur : ∀ i, (probe i).2 ≤ 30) :
    ∀ (k a : Nat),
      (retryLoop probe 5 k a).outcome = Outcome.failure ∧
      (retryLoop probe 5 k a).attempts = a + k ∧
      5 * k ≤ (retryLoop probe 5 k a).elapsed ∧
      (retryLoop probe 5 k a).elapsed ≤ 5 * k + 30 * (k + 1) := by
  intro k
  induction k with
  | zero =>
    intro a
    have hd := hdur a
    refine ⟨by simp [retryLoop, hfail a], by simp [retryLoop], by simp [retryLoop],
      by simp [retryLoop]; omega⟩
  | succ k ih =>
    intro a
    have hd := hdur a
    obtain ⟨ho, ha, hlo, hhi⟩ := ih (a + 1)
    have hif : retryLoop probe 5 (k + 1) a =
        ⟨(retryLoop probe 5 k (a + 1)).outcome, (retryLoop probe 5 k (a + 1)).attempts,
          (probe a).2 + 5 + (retryLoop probe 5 k (a + 1)).elapsed⟩ := by
      simp [retryLoop, hfail a]
    rw [hif]
    dsimp only
    exact ⟨ho, by omega, by omega, by omega⟩

/-- C8 (Retry Coordinator, modelled from the spec): with `maxRetries=3`,
`retryDelay=5`, `timeout=30`, a check whose probe fails on every attempt
(each attempt within the 30-second timeout) performs exactly 4 attempts,
ends with outcome `failure`, and its total elapsed time is between 15
seconds (3 × retryDelay) and 135 seconds (4 × timeout + 3 × retryDelay). -/
theorem C8_retry_exhaustion (probe : Nat → Outcome × Nat)
    (hfail : ∀ i, (probe i).1 = Outcome.failure)
    (hdur : ∀ i, (probe i).2 ≤ 30) :
    (runCheck 3 5 probe).outcome = Outcome.failure ∧
    (runCheck 3 5 probe).attempts = 4 ∧
    15 ≤ (runCheck 3 5 probe).elapsed ∧
    (runCheck 3 5 probe).elapsed ≤ 135 := by
  obtain ⟨h1, h2, h3, h4⟩ := retryLoop_fail_5_30 probe hfail hdur 3 1
  unfold runCheck
  exact ⟨h1, by omega, by omega, by omega⟩

theorem C8_witness :
    (runCheck 3 5 alwaysFail30).outcome = Outcome.failure ∧
    (runCheck 3 5 alwaysFail30).attempts = 4 ∧
    15 ≤ (runCheck 3 5 alwaysFail30).elapsed ∧
    (runCheck 3 5 alwaysFail30).elapsed ≤ 135 :=
  C8_retry_exhaustion alwaysFail30 (fun _ => rfl) (fun _ => Nat.le_refl 30)

end DevOpsGuardian
